import Mathlib

/-!
Shallow embedding of the Aadhaar data-analysis pipeline (`src/app.py`) and
proofs about its normalization and aggregation behaviour.

Modelling conventions:
* A pandas DataFrame is a `List Row`; a `Row` carries every column that may
  appear in any of the three dataset categories, as `Option Nat` (a column
  that is absent from the frame is `none`, mirroring pandas' dynamic columns).
  Reading a numeric column that the pipeline has always populated is modelled
  with `Option.getD 0`.
* Python string operations (`str.lower`, `str.replace`, `str.split`,
  `str.strip`, `str.endswith`) are re-implemented structurally over `List Char`
  so that every definition evaluates inside the kernel; they follow Python's
  semantics (left-to-right non-overlapping replacement, ASCII case folding,
  whitespace stripping).
* `pd.to_datetime(..., format='%d-%m-%Y')` is modelled as the identity on
  already-parsed `Date` values: no claim concerns date-parse failure.
* pandas `groupby(..., as_index=False).sum()/.agg(sum)` is modelled as: take
  the distinct keys occurring in the frame, sort them ascending, and emit one
  row per key with the column sums over the matching rows.
* In-place DataFrame mutation (`df['total']=...`, `df['month']=...`) is
  modelled by explicit state passing: the mutated frame is returned alongside
  the result.
* Failures (`pd.concat` of an empty list raising `ValueError`, a dispatcher
  falling through every branch and returning `None`) are modelled with
  `Option`.
-/

namespace Adhaar

/-- Python `str.lower` on one character (ASCII case folding; the data is ASCII). -/
def toLowerChar (c : Char) : Char :=
  if 'A' ≤ c ∧ c ≤ 'Z' then Char.ofNat (c.toNat + 32) else c

/-- Python `str.lower`. -/
def pyLower (s : String) : String := ⟨s.data.map toLowerChar⟩

/-- Python `str.replace(pat, rep)` worker: left-to-right, non-overlapping
replacement over the character list.  The `Nat` argument is a fuel bound on the
number of steps; callers pass the input length, which suffices since every step
consumes at least one character. -/
def pyReplaceAux (pat rep : List Char) : Nat → List Char → List Char
  | _, [] => []
  | 0, s => s
  | Nat.succ n, c :: cs =>
    if !pat.isEmpty && pat.isPrefixOf (c :: cs) then
      rep ++ pyReplaceAux pat rep n (List.drop pat.length (c :: cs))
    else
      c :: pyReplaceAux pat rep n cs

/-- Python `s.replace(pat, rep)`. -/
def pyReplace (s pat rep : String) : String :=
  ⟨pyReplaceAux pat.data rep.data s.data.length s.data⟩

/-- Python `s.split(",")` over the character list: `""` yields `[""]`,
a trailing separator yields a trailing empty field. -/
def splitComma : List Char → List (List Char)
  | [] => [[]]
  | c :: cs =>
    let r := splitComma cs
    if c = ',' then [] :: r
    else
      match r with
      | [] => [[c]]
      | g :: gs => (c :: g) :: gs

/-- Python `s.split(",")`. -/
def pySplitComma (s : String) : List String := (splitComma s.data).map (⟨·⟩)

/-- Whitespace recognised by `str.strip` (the characters occurring in the data). -/
def isSpaceChar (c : Char) : Bool :=
  c == ' ' || c == '\t' || c == '\n' || c == '\r'

/-- Python `str.strip`. -/
def pyStrip (s : String) : String :=
  ⟨((s.data.dropWhile isSpaceChar).reverse.dropWhile isSpaceChar).reverse⟩

/-- Python `str.endswith`, via a structural suffix test on the char lists. -/
def strEndsWith (s post : String) : Bool := post.data.isSuffixOf s.data

/-- The state-name correction dictionary `st_corr` of `src/app.py`
(lines 46-70), in source order. -/
def st_corr : List (String × String) :=
  [("andaman", "andaman and nicobar island"),
   ("nicobar islands", "andaman and nicobar island"),
   ("dadra", "dadra and nagar haveli"),
   ("the dadra", "dadra and nagar haveli"),
   ("nagar haveli", "dadra and nagar haveli"),
   ("daman", "daman and diu"),
   ("diu", "daman and diu"),
   ("jammu", "jammu and kashmir"),
   ("kashmir", "jammu and kashmir"),
   ("orissa", "odisha"),
   ("pondicherry", "puducherry"),
   ("west  bengal", "west bengal"),
   ("west bangal", "west bengal"),
   ("westbengal", "west bengal"),
   ("tamilnadu", "tamil nadu"),
   ("uttaranchal", "uttarakhand"),
   ("chhatisgarh", "chhattisgarh"),
   ("west bengli", "west bengal"),
   ("jaipur", "rajasthan"),
   ("darbhanga", "bihar"),
   ("puttenhalli", "karnataka"),
   ("raja annamalai puram", "tamil nadu"),
   ("nagpur", "maharashtra"),
   ("madanapalle", "andhra pradesh"),
   ("balanagar", "telangana")]

/-- `Series.replace(st_corr)` on one cell: exact-match substitution through the
alias table, identity on non-keys (line 118 of `src/app.py`). -/
def applyCorr (s : String) : String :=
  match List.lookup s st_corr with
  | some v => v
  | none => s

/-- Lines 100-112 of `create` applied to one `state` cell: lowercase, replace
the separators `&`, `" and "`, `/` by commas, split on commas, strip each
candidate.  (The explode step distributes these per-cell results into rows.) -/
def candidates (raw : String) : List String :=
  (pySplitComma (pyReplace (pyReplace (pyReplace (pyLower raw) "&" ",") " and " ",") "/" ",")).map pyStrip

/-- Lines 100-118 of `create` for one raw `state` cell: the candidate list,
minus the `"100000"` sentinel rows, with the alias table applied. -/
def normalizeRow (raw : String) : List String :=
  ((candidates raw).filter (fun c => !(c == "100000"))).map applyCorr

/-- A calendar date as parsed by `pd.to_datetime(..., format='%d-%m-%Y')`. -/
structure Date where
  y : Nat
  m : Nat
  d : Nat
deriving DecidableEq

/-- Strict comparison of pandas timestamps (lexicographic on year, month, day). -/
def Date.lt (a b : Date) : Prop :=
  a.y < b.y ∨ (a.y = b.y ∧ (a.m < b.m ∨ (a.m = b.m ∧ a.d < b.d)))

/-- Non-strict comparison of pandas timestamps. -/
def Date.le (a b : Date) : Prop :=
  a.y < b.y ∨ (a.y = b.y ∧ (a.m < b.m ∨ (a.m = b.m ∧ a.d ≤ b.d)))

instance (a b : Date) : Decidable (Date.lt a b) := by
  unfold Date.lt; exact inferInstance

instance (a b : Date) : Decidable (Date.le a b) := by
  unfold Date.le; exact inferInstance

/-- The calendar month of a date: `Series.dt.to_period('M')`. -/
abbrev Month := Nat × Nat

/-- Truncate a date to its period key `(year, month)`. -/
def monthOf (dt : Date) : Month := (dt.y, dt.m)

/-- One DataFrame row.  Every column that can occur in any of the three dataset
categories is present as an `Option`: `none` models an absent column. -/
structure Row where
  state : String
  date : Date
  age_0_5 : Option Nat := none
  age_5_17 : Option Nat := none
  age_18_greater : Option Nat := none
  bio_age_5_17 : Option Nat := none
  bio_age_17_ : Option Nat := none
  demo_age_5_17 : Option Nat := none
  demo_age_17_ : Option Nat := none
  total : Option Nat := none
  month : Option Month := none
deriving DecidableEq

/-- Lines 100-118 of `create` for one raw row: clean the `state` cell and
explode the row into one row per surviving candidate, each copy carrying the
full, unscaled original values of every other column. -/
def explodeRow (r : Row) : List Row :=
  (normalizeRow r.state).map (fun st => { r with state := st })

/-- The cleaning phase of `create` over a whole frame (explode preserves the
row order and the in-row candidate order). -/
def cleanRows (rows : List Row) : List Row := rows.flatMap explodeRow

/-- One source file: its file name and its parsed rows.  Parsing itself is not
modelled (no claim concerns parse failure); `rows` is the parsed content. -/
structure CsvFile where
  name : String
  rows : List Row
deriving DecidableEq

/-- `create(selected_folder)` (lines 78-123): keep the files whose name ends in
`.csv`, read each, and `pd.concat` them.  `pd.concat` of an empty list raises
`ValueError`, modelled as `none`.  Date parsing is the identity here (dates are
already `Date` values). -/
def create (files : List CsvFile) : Option (List Row) :=
  let csvs := files.filter (fun f => strEndsWith f.name ".csv")
  if csvs.isEmpty then none
  else some (cleanRows (csvs.flatMap CsvFile.rows))

/-- Ascending order on period keys, as pandas sorts a `month` group key. -/
def monthLe (a b : Month) : Prop := a.1 < b.1 ∨ (a.1 = b.1 ∧ a.2 ≤ b.2)

instance : DecidableRel monthLe := fun a b => by unfold monthLe; exact inferInstance

instance : IsTotal Month monthLe := ⟨by intro a b; unfold monthLe; omega⟩

instance : IsTrans Month monthLe := ⟨by intro a b c; unfold monthLe; omega⟩

/-- Strict ascending order on period keys. -/
def monthLt (a b : Month) : Prop := monthLe a b ∧ a ≠ b

/-- Strict month order spelled out (used inside the composite key order). -/
def monthLtS (a b : Month) : Prop := a.1 < b.1 ∨ (a.1 = b.1 ∧ a.2 < b.2)

instance : DecidableRel monthLtS := fun a b => by unfold monthLtS; exact inferInstance

/-- Code-point lexicographic comparison of strings, as pandas orders string keys. -/
def strLtB : List Char → List Char → Bool
  | [], [] => false
  | [], _ :: _ => true
  | _ :: _, [] => false
  | a :: as, b :: bs => decide (a < b) || (a == b && strLtB as bs)

/-- Non-strict code-point order on strings. -/
def strLeP (a b : String) : Prop := strLtB a.data b.data = true ∨ a = b

instance : DecidableRel strLeP := fun a b => by unfold strLeP; exact inferInstance

/-- Lexicographic order on composite `(month, state)` grouping keys. -/
def msLe (a b : Month × String) : Prop :=
  monthLtS a.1 b.1 ∨ (a.1 = b.1 ∧ strLeP a.2 b.2)

instance : DecidableRel msLe := fun a b => by unfold msLe; exact inferInstance

/-- pandas `groupby(..., sort=True)` key sequence: the distinct keys occurring
in the frame, sorted ascending. -/
def groupedKeys {K : Type} [DecidableEq K] (le : K → K → Prop) [DecidableRel le]
    (keys : List K) : List K :=
  List.insertionSort le keys.dedup

/-- Column sum of an optional column over a list of rows (the pipeline always
populates the column before it is summed; an absent cell reads as 0). -/
def sumOpt (l : List Row) (f : Row → Option Nat) : Nat :=
  (l.map (fun r => (f r).getD 0)).sum

/-- Running cumulative sums with a start offset: `cumsumFrom c [x, y, ...] =
[c+x, c+x+y, ...]`. -/
def cumsumFrom (c : Nat) : List Nat → List Nat
  | [] => []
  | x :: xs => (c + x) :: cumsumFrom (c + x) xs

/-- `Series.cumsum()`. -/
def cumsum (l : List Nat) : List Nat := cumsumFrom 0 l

/-- Line 451 / 473 of `src/app.py`:
`df['total'] = df['age_0_5'] + df['age_5_17'] + df['age_18_greater']`. -/
def setTotalE (r : Row) : Row :=
  { r with total := some (r.age_0_5.getD 0 + r.age_5_17.getD 0 + r.age_18_greater.getD 0) }

/-- Line 456 / 478: `df['total'] = df['bio_age_5_17'] + df['bio_age_17_']`. -/
def setTotalB (r : Row) : Row :=
  { r with total := some (r.bio_age_5_17.getD 0 + r.bio_age_17_.getD 0) }

/-- Line 461 / 483: `df['total'] = df['demo_age_5_17'] + df['demo_age_17_']`. -/
def setTotalD (r : Row) : Row :=
  { r with total := some (r.demo_age_5_17.getD 0 + r.demo_age_17_.getD 0) }

/-- Line 129 / 238 / 340: `df['month'] = df['date'].dt.to_period('M')`. -/
def setMonthCol (r : Row) : Row := { r with month := some (monthOf r.date) }

/-- The `(month, state)` key of a row, read from the `month` column that
`setMonthCol` populated. -/
def mkey (r : Row) : Month × String := (r.month.getD (0, 0), r.state)

/-- A row of the intermediate `mt = df.groupby(["month","state"])` frame in
`enrol_date_wise` (line 130). -/
structure MtERow where
  month : Month
  state : String
  age_0_5 : Nat
  age_5_17 : Nat
  age_18_greater : Nat
  total : Nat
deriving DecidableEq

/-- A row of the enrolment time-series output table (line 192 projection). -/
structure ETsRow where
  month : Month
  age_0_5 : Nat
  age_5_17 : Nat
  age_18_greater : Nat
  total : Nat
deriving DecidableEq

/-- A row of the internal enrolment time-series frame after the cumulative
columns of lines 141-144 are added. -/
structure EDtsRow where
  month : Month
  age_0_5 : Nat
  age_5_17 : Nat
  age_18_greater : Nat
  total : Nat
  c_age_0_5 : Nat
  c_age_5_17 : Nat
  c_age_18_greater : Nat
  c_total : Nat
deriving DecidableEq

/-- Line 130: `mt = df.groupby(["month","state"], as_index=False)[[measures, total]].sum()`. -/
def enrol_mt (df : List Row) : List MtERow :=
  (groupedKeys msLe (df.map mkey)).map (fun k =>
    let g := df.filter (fun r => mkey r == k)
    { month := k.1, state := k.2,
      age_0_5 := sumOpt g Row.age_0_5,
      age_5_17 := sumOpt g Row.age_5_17,
      age_18_greater := sumOpt g Row.age_18_greater,
      total := sumOpt g Row.total })

/-- Lines 134 / 138: `groupby('month', as_index=False).agg(sum of each column)`
over the (possibly state-filtered) `mt` frame. -/
def egroupMonth (mt : List MtERow) : List ETsRow :=
  (groupedKeys monthLe (mt.map MtERow.month)).map (fun mo =>
    let g := mt.filter (fun x => x.month == mo)
    { month := mo,
      age_0_5 := (g.map MtERow.age_0_5).sum,
      age_5_17 := (g.map MtERow.age_5_17).sum,
      age_18_greater := (g.map MtERow.age_18_greater).sum,
      total := (g.map MtERow.total).sum })

/-- Lines 141-144: attach the running cumulative columns, threading the three
per-measure accumulators; `c_total` is built as the sum of the per-measure
cumulatives, exactly as line 144 does. -/
def addCumE (c05 c517 c18 : Nat) : List ETsRow → List EDtsRow
  | [] => []
  | r :: rs =>
    let n05 := c05 + r.age_0_5
    let n517 := c517 + r.age_5_17
    let n18 := c18 + r.age_18_greater
    { month := r.month, age_0_5 := r.age_0_5, age_5_17 := r.age_5_17,
      age_18_greater := r.age_18_greater, total := r.total,
      c_age_0_5 := n05, c_age_5_17 := n517, c_age_18_greater := n18,
      c_total := n05 + n517 + n18 } :: addCumE n05 n517 n18 rs

/-- Line 192: keep only `month`, the raw measures and `total`. -/
def stripE (r : EDtsRow) : ETsRow :=
  { month := r.month, age_0_5 := r.age_0_5, age_5_17 := r.age_5_17,
    age_18_greater := r.age_18_greater, total := r.total }

/-- The internal enrolment time-series frame of `enrol_date_wise` (the `dts`
of lines 129-144), cumulative columns included. -/
def enrol_dts (df : List Row) (stv : String) : List EDtsRow :=
  addCumE 0 0 0 (egroupMonth
    (if stv ≠ "" then (enrol_mt (df.map setMonthCol)).filter (fun x => x.state == stv)
     else enrol_mt (df.map setMonthCol)))

/-- `enrol_date_wise(df, stv)` (lines 127-193).  The first component is the
input frame after the in-place `df['month']` mutation of line 129; the second
is the returned summary table (line 192); the third is the plot path. -/
def enrol_date_wise (df : List Row) (stv : String) : List Row × List ETsRow × String :=
  (df.map setMonthCol,
   (enrol_dts df stv).map stripE,
   if stv ≠ "" then "plots/date_plot_" ++ pyReplace stv " " "-" ++ ".png"
   else "plots/date_plot.png")

/-- A row of the `bio` intermediate `(month, state)` group frame (line 239). -/
structure MtBRow where
  month : Month
  state : String
  bio_age_5_17 : Nat
  bio_age_17_ : Nat
  total : Nat
deriving DecidableEq

/-- A row of the biometric time-series output table (line 297 projection). -/
structure BTsRow where
  month : Month
  bio_age_5_17 : Nat
  bio_age_17_ : Nat
  total : Nat
deriving DecidableEq

/-- A row of the internal biometric time-series frame with cumulative columns
(lines 251-253). -/
structure BDtsRow where
  month : Month
  bio_age_5_17 : Nat
  bio_age_17_ : Nat
  total : Nat
  c_bio_age_5_17 : Nat
  c_bio_age_17_ : Nat
  c_total : Nat
deriving DecidableEq

/-- Line 239: the biometric `(month, state)` group-sum frame. -/
def bio_mt (df : List Row) : List MtBRow :=
  (groupedKeys msLe (df.map mkey)).map (fun k =>
    let g := df.filter (fun r => mkey r == k)
    { month := k.1, state := k.2,
      bio_age_5_17 := sumOpt g Row.bio_age_5_17,
      bio_age_17_ := sumOpt g Row.bio_age_17_,
      total := sumOpt g Row.total })

/-- Lines 244 / 248: month regrouping of the biometric frame. -/
def bgroupMonth (mt : List MtBRow) : List BTsRow :=
  (groupedKeys monthLe (mt.map MtBRow.month)).map (fun mo =>
    let g := mt.filter (fun x => x.month == mo)
    { month := mo,
      bio_age_5_17 := (g.map MtBRow.bio_age_5_17).sum,
      bio_age_17_ := (g.map MtBRow.bio_age_17_).sum,
      total := (g.map MtBRow.total).sum })

/-- Lines 251-253: biometric cumulative columns; `c_total` is the sum of the
two per-measure cumulatives. -/
def addCumB (c517 c17 : Nat) : List BTsRow → List BDtsRow
  | [] => []
  | r :: rs =>
    let n517 := c517 + r.bio_age_5_17
    let n17 := c17 + r.bio_age_17_
    { month := r.month, bio_age_5_17 := r.bio_age_5_17, bio_age_17_ := r.bio_age_17_,
      total := r.total, c_bio_age_5_17 := n517, c_bio_age_17_ := n17,
      c_total := n517 + n17 } :: addCumB n517 n17 rs

/-- Line 297: the biometric output projection. -/
def stripB (r : BDtsRow) : BTsRow :=
  { month := r.month, bio_age_5_17 := r.bio_age_5_17, bio_age_17_ := r.bio_age_17_,
    total := r.total }

/-- The internal biometric time-series frame of `bio_date_wise` (lines 238-253). -/
def bio_dts (df : List Row) (stv : String) : List BDtsRow :=
  addCumB 0 0 (bgroupMonth
    (if stv ≠ "" then (bio_mt (df.map setMonthCol)).filter (fun x => x.state == stv)
     else bio_mt (df.map setMonthCol)))

/-- `bio_date_wise(df, stv)` (lines 236-298). -/
def bio_date_wise (df : List Row) (stv : String) : List Row × List BTsRow × String :=
  (df.map setMonthCol,
   (bio_dts df stv).map stripB,
   if stv ≠ "" then "plots/date_plot_" ++ pyReplace stv " " "-" ++ ".png"
   else "plots/date_plot.png")

/-- A row of the `demo` intermediate `(month, state)` group frame (line 341). -/
structure MtDRow where
  month : Month
  state : String
  demo_age_5_17 : Nat
  demo_age_17_ : Nat
  total : Nat
deriving DecidableEq

/-- A row of the demographic time-series output table (line 403 projection). -/
structure DTsRow where
  month : Month
  demo_age_5_17 : Nat
  demo_age_17_ : Nat
  total : Nat
deriving DecidableEq

/-- A row of the internal demographic time-series frame with cumulative columns
(lines 353-355). -/
structure DDtsRow where
  month : Month
  demo_age_5_17 : Nat
  demo_age_17_ : Nat
  total : Nat
  c_demo_age_5_17 : Nat
  c_demo_age_17_ : Nat
  c_total : Nat
deriving DecidableEq

/-- Line 341: the demographic `(month, state)` group-sum frame. -/
def demo_mt (df : List Row) : List MtDRow :=
  (groupedKeys msLe (df.map mkey)).map (fun k =>
    let g := df.filter (fun r => mkey r == k)
    { month := k.1, state := k.2,
      demo_age_5_17 := sumOpt g Row.demo_age_5_17,
      demo_age_17_ := sumOpt g Row.demo_age_17_,
      total := sumOpt g Row.total })

/-- Lines 346 / 350: month regrouping of the demographic frame. -/
def dgroupMonth (mt : List MtDRow) : List DTsRow :=
  (groupedKeys monthLe (mt.map MtDRow.month)).map (fun mo =>
    let g := mt.filter (fun x => x.month == mo)
    { month := mo,
      demo_age_5_17 := (g.map MtDRow.demo_age_5_17).sum,
      demo_age_17_ := (g.map MtDRow.demo_age_17_).sum,
      total := (g.map MtDRow.total).sum })

/-- Lines 353-355: demographic cumulative columns. -/
def addCumD (c517 c17 : Nat) : List DTsRow → List DDtsRow
  | [] => []
  | r :: rs =>
    let n517 := c517 + r.demo_age_5_17
    let n17 := c17 + r.demo_age_17_
    { month := r.month, demo_age_5_17 := r.demo_age_5_17, demo_age_17_ := r.demo_age_17_,
      total := r.total, c_demo_age_5_17 := n517, c_demo_age_17_ := n17,
      c_total := n517 + n17 } :: addCumD n517 n17 rs

/-- Line 403: the demographic output projection. -/
def stripD (r : DDtsRow) : DTsRow :=
  { month := r.month, demo_age_5_17 := r.demo_age_5_17, demo_age_17_ := r.demo_age_17_,
    total := r.total }

/-- The internal demographic time-series frame of `demo_date_wise` (lines 340-355). -/
def demo_dts (df : List Row) (stv : String) : List DDtsRow :=
  addCumD 0 0 (dgroupMonth
    (if stv ≠ "" then (demo_mt (df.map setMonthCol)).filter (fun x => x.state == stv)
     else demo_mt (df.map setMonthCol)))

/-- `demo_date_wise(df, stv)` (lines 338-404). -/
def demo_date_wise (df : List Row) (stv : String) : List Row × List DTsRow × String :=
  (df.map setMonthCol,
   (demo_dts df stv).map stripD,
   if stv ≠ "" then "plots/date_plot_" ++ pyReplace stv " " "-" ++ ".png"
   else "plots/date_plot.png")

/-- `Series.min()` over the date column (`⟨0,0,0⟩` stands in for `NaT` on an
empty frame; the claims about bounds quantify over non-empty frames). -/
def minDateList : List Date → Date
  | [] => ⟨0, 0, 0⟩
  | [dt] => dt
  | dt :: dt2 :: rest =>
    let m := minDateList (dt2 :: rest)
    if Date.le dt m then dt else m

/-- `Series.max()` over the date column. -/
def maxDateList : List Date → Date
  | [] => ⟨0, 0, 0⟩
  | [dt] => dt
  | dt :: dt2 :: rest =>
    let m := maxDateList (dt2 :: rest)
    if Date.le dt m then m else dt

/-- A row of the enrolment state-wise output (line 202 / 205). -/
structure EStRow where
  state : String
  age_0_5 : Nat
  age_5_17 : Nat
  age_18_greater : Nat
  total : Nat
deriving DecidableEq

/-- A row of the biometric state-wise output (line 307 / 310). -/
structure BStRow where
  state : String
  bio_age_5_17 : Nat
  bio_age_17_ : Nat
  total : Nat
deriving DecidableEq

/-- A row of the demographic state-wise output (line 413 / 416). -/
structure DStRow where
  state : String
  demo_age_5_17 : Nat
  demo_age_17_ : Nat
  total : Nat
deriving DecidableEq

/-- Line 202 / 205: `groupby('state', as_index=False).agg(sum)` for enrolment. -/
def egroupState (df : List Row) : List EStRow :=
  (groupedKeys strLeP (df.map Row.state)).map (fun k =>
    let g := df.filter (fun r => r.state == k)
    { state := k,
      age_0_5 := sumOpt g Row.age_0_5,
      age_5_17 := sumOpt g Row.age_5_17,
      age_18_greater := sumOpt g Row.age_18_greater,
      total := sumOpt g Row.total })

/-- Line 307 / 310: the biometric state group-sum. -/
def bgroupState (df : List Row) : List BStRow :=
  (groupedKeys strLeP (df.map Row.state)).map (fun k =>
    let g := df.filter (fun r => r.state == k)
    { state := k,
      bio_age_5_17 := sumOpt g Row.bio_age_5_17,
      bio_age_17_ := sumOpt g Row.bio_age_17_,
      total := sumOpt g Row.total })

/-- Line 413 / 416: the demographic state group-sum. -/
def dgroupState (df : List Row) : List DStRow :=
  (groupedKeys strLeP (df.map Row.state)).map (fun k =>
    let g := df.filter (fun r => r.state == k)
    { state := k,
      demo_age_5_17 := sumOpt g Row.demo_age_5_17,
      demo_age_17_ := sumOpt g Row.demo_age_17_,
      total := sumOpt g Row.total })

/-- `df['date'].between(s, e)` — inclusive on both ends. -/
def betweenB (s e : Date) (dt : Date) : Bool :=
  decide (Date.le s dt) && decide (Date.le dt e)

/-- `enrol_state_wise(df, s, e)` (lines 197-232).  `none` bounds model the
empty-string defaults; the returned string is the plot path chosen on
lines 224-227. -/
def enrol_state_wise (df : List Row) (s e : Option Date) : List EStRow × String :=
  (if Date.lt (minDateList (df.map Row.date)) (s.getD (minDateList (df.map Row.date)))
      ∨ Date.lt (e.getD (maxDateList (df.map Row.date))) (maxDateList (df.map Row.date)) then
     egroupState (df.filter (fun r =>
       betweenB (s.getD (minDateList (df.map Row.date))) (e.getD (maxDateList (df.map Row.date))) r.date))
   else egroupState df,
   if s.getD (minDateList (df.map Row.date)) = minDateList (df.map Row.date)
      ∧ e.getD (maxDateList (df.map Row.date)) = maxDateList (df.map Row.date) then
     "plots/state_plot.png"
   else "plots/temp_state_plot.png")

/-- `bio_state_wise(df, s, e)` (lines 302-334). -/
def bio_state_wise (df : List Row) (s e : Option Date) : List BStRow × String :=
  (if Date.lt (minDateList (df.map Row.date)) (s.getD (minDateList (df.map Row.date)))
      ∨ Date.lt (e.getD (maxDateList (df.map Row.date))) (maxDateList (df.map Row.date)) then
     bgroupState (df.filter (fun r =>
       betweenB (s.getD (minDateList (df.map Row.date))) (e.getD (maxDateList (df.map Row.date))) r.date))
   else bgroupState df,
   if s.getD (minDateList (df.map Row.date)) = minDateList (df.map Row.date)
      ∧ e.getD (maxDateList (df.map Row.date)) = maxDateList (df.map Row.date) then
     "plots/state_plot.png"
   else "plots/temp_state_plot.png")

/-- `demo_state_wise(df, s, e)` (lines 408-440). -/
def demo_state_wise (df : List Row) (s e : Option Date) : List DStRow × String :=
  (if Date.lt (minDateList (df.map Row.date)) (s.getD (minDateList (df.map Row.date)))
      ∨ Date.lt (e.getD (maxDateList (df.map Row.date))) (maxDateList (df.map Row.date)) then
     dgroupState (df.filter (fun r =>
       betweenB (s.getD (minDateList (df.map Row.date))) (e.getD (maxDateList (df.map Row.date))) r.date))
   else dgroupState df,
   if s.getD (minDateList (df.map Row.date)) = minDateList (df.map Row.date)
      ∧ e.getD (maxDateList (df.map Row.date)) = maxDateList (df.map Row.date) then
     "plots/state_plot.png"
   else "plots/temp_state_plot.png")

/-- The category-tagged result table of the `date_wise` dispatcher. -/
inductive TsTable where
  | enrol : List ETsRow → TsTable
  | bio : List BTsRow → TsTable
  | demo : List DTsRow → TsTable
deriving DecidableEq

/-- The category-tagged result table of the `state_wise` dispatcher. -/
inductive StTable where
  | enrol : List EStRow → StTable
  | bio : List BStRow → StTable
  | demo : List DStRow → StTable
deriving DecidableEq

/-- `date_wise(selected_folder, df, stv)` (lines 447-462): set the derived
`total` column for the recognised category and delegate; an unrecognised
category falls through every branch and returns `None` (`none` here).  The
first component of a successful result is the input frame after the in-place
column mutations. -/
def date_wise (folder : String) (df : List Row) (stv : String) :
    Option (List Row × TsTable × String) :=
  if folder = "api_data_aadhar_enrolment" then
    let r := enrol_date_wise (df.map setTotalE) stv
    some (r.1, TsTable.enrol r.2.1, r.2.2)
  else if folder = "api_data_aadhar_biometric" then
    let r := bio_date_wise (df.map setTotalB) stv
    some (r.1, TsTable.bio r.2.1, r.2.2)
  else if folder = "api_data_aadhar_demographic" then
    let r := demo_date_wise (df.map setTotalD) stv
    some (r.1, TsTable.demo r.2.1, r.2.2)
  else none

/-- `state_wise(selected_folder, df, s, e)` (lines 469-484). -/
def state_wise (folder : String) (df : List Row) (s e : Option Date) :
    Option (List Row × StTable × String) :=
  if folder = "api_data_aadhar_enrolment" then
    let df1 := df.map setTotalE
    let r := enrol_state_wise df1 s e
    some (df1, StTable.enrol r.1, r.2)
  else if folder = "api_data_aadhar_biometric" then
    let df1 := df.map setTotalB
    let r := bio_state_wise df1 s e
    some (df1, StTable.bio r.1, r.2)
  else if folder = "api_data_aadhar_demographic" then
    let df1 := df.map setTotalD
    let r := demo_state_wise df1 s e
    some (df1, StTable.demo r.1, r.2)
  else none

/-- A raw enrolment row whose region text is `"Daman & Diu"`. -/
def damanRow : Row :=
  { state := "Daman & Diu", date := ⟨2024, 1, 5⟩,
    age_0_5 := some 10, age_5_17 := some 5, age_18_greater := some 2 }

/-- A raw enrolment row whose region text is `"Jammu and Kashmir"`. -/
def jkRow : Row :=
  { state := "Jammu and Kashmir", date := ⟨2024, 2, 6⟩,
    age_0_5 := some 3, age_5_17 := some 1, age_18_greater := some 0 }

/-- A raw row whose region text is exactly the sentinel `"100000"`. -/
def sentinelRow : Row := { state := "100000", date := ⟨2024, 1, 1⟩ }

/-- A canonical enrolment row used as a concrete frame in several witnesses. -/
def biharRow : Row :=
  { state := "bihar", date := ⟨2024, 1, 5⟩,
    age_0_5 := some 10, age_5_17 := some 5, age_18_greater := some 2 }

/-- A canonical record set spanning January and March 2024 only. -/
def sparseDf : List Row :=
  [biharRow,
   { state := "odisha", date := ⟨2024, 3, 10⟩,
     age_0_5 := some 1, age_5_17 := some 1, age_18_greater := some 1 }]

/-- A one-row canonical record set used in the edge-case witnesses. -/
def edgeDf : List Row := [biharRow]

/-- A folder listing holding no file with the `.csv` extension. -/
def txtOnlyFolder : List CsvFile := [{ name := "readme.txt", rows := [] }]

/-! Helper lemmas about the date order and the column minima / maxima. -/

theorem Date.le_refl (a : Date) : Date.le a a := by
  unfold Date.le; omega

theorem Date.le_trans {a b c : Date} (h1 : Date.le a b) (h2 : Date.le b c) :
    Date.le a c := by
  unfold Date.le at *; omega

theorem Date.le_of_not_le {a b : Date} (h : ¬ Date.le a b) : Date.le b a := by
  unfold Date.le at *; omega

theorem Date.le_of_not_lt {a b : Date} (h : ¬ Date.lt a b) : Date.le b a := by
  unfold Date.lt at h; unfold Date.le; omega

theorem minDateList_le (l : List Date) : ∀ dt ∈ l, Date.le (minDateList l) dt := by
  induction l with
  | nil => intro dt h; cases h
  | cons d0 tl ih =>
    intro dt hdt
    cases tl with
    | nil =>
      rcases List.mem_cons.mp hdt with rfl | h
      · exact Date.le_refl dt
      · cases h
    | cons d1 rest =>
      show Date.le (if Date.le d0 (minDateList (d1 :: rest)) then d0
                    else minDateList (d1 :: rest)) dt
      rcases List.mem_cons.mp hdt with rfl | h
      · by_cases hc : Date.le dt (minDateList (d1 :: rest))
        · rw [if_pos hc]; exact Date.le_refl dt
        · rw [if_neg hc]; exact Date.le_of_not_le hc
      · have hm := ih dt h
        by_cases hc : Date.le d0 (minDateList (d1 :: rest))
        · rw [if_pos hc]; exact Date.le_trans hc hm
        · rw [if_neg hc]; exact hm

theorem le_maxDateList (l : List Date) : ∀ dt ∈ l, Date.le dt (maxDateList l) := by
  induction l with
  | nil => intro dt h; cases h
  | cons d0 tl ih =>
    intro dt hdt
    cases tl with
    | nil =>
      rcases List.mem_cons.mp hdt with rfl | h
      · exact Date.le_refl dt
      · cases h
    | cons d1 rest =>
      show Date.le dt (if Date.le d0 (maxDateList (d1 :: rest)) then maxDateList (d1 :: rest)
                       else d0)
      rcases List.mem_cons.mp hdt with rfl | h
      · by_cases hc : Date.le dt (maxDateList (d1 :: rest))
        · rw [if_pos hc]; exact hc
        · rw [if_neg hc]; exact Date.le_refl dt
      · have hm := ih dt h
        by_cases hc : Date.le d0 (maxDateList (d1 :: rest))
        · rw [if_pos hc]; exact hm
        · rw [if_neg hc]; exact Date.le_trans hm (Date.le_of_not_le hc)

/-! Helper lemmas about grouped keys, sums and the alias table. -/

theorem mem_groupedKeys {K : Type} [DecidableEq K] (le : K → K → Prop) [DecidableRel le]
    (keys : List K) (k : K) : k ∈ groupedKeys le keys ↔ k ∈ keys := by
  unfold groupedKeys
  rw [(List.perm_insertionSort le keys.dedup).mem_iff, List.mem_dedup]

theorem nodup_groupedKeys {K : Type} [DecidableEq K] (le : K → K → Prop) [DecidableRel le]
    (keys : List K) : (groupedKeys le keys).Nodup := by
  unfold groupedKeys
  exact ((List.perm_insertionSort le keys.dedup).nodup_iff).mpr (List.nodup_dedup keys)

theorem sorted_groupedKeys {K : Type} [DecidableEq K] (le : K → K → Prop) [DecidableRel le]
    [IsTotal K le] [IsTrans K le] (keys : List K) :
    List.Sorted le (groupedKeys le keys) :=
  List.sorted_insertionSort le keys.dedup

theorem sum_map_add3 {α : Type} (l : List α) (t f g h : α → Nat)
    (H : ∀ a ∈ l, t a = f a + g a + h a) :
    (l.map t).sum = (l.map f).sum + (l.map g).sum + (l.map h).sum := by
  induction l with
  | nil => simp
  | cons a tl ih =>
    simp only [List.map_cons, List.sum_cons]
    rw [H a (List.mem_cons_self a tl), ih (fun x hx => H x (List.mem_cons_of_mem a hx))]
    omega

theorem sum_map_add2 {α : Type} (l : List α) (t f g : α → Nat)
    (H : ∀ a ∈ l, t a = f a + g a) :
    (l.map t).sum = (l.map f).sum + (l.map g).sum := by
  induction l with
  | nil => simp
  | cons a tl ih =>
    simp only [List.map_cons, List.sum_cons]
    rw [H a (List.mem_cons_self a tl), ih (fun x hx => H x (List.mem_cons_of_mem a hx))]
    omega

theorem lookup_mem_snd {l : List (String × String)} {a v : String}
    (h : List.lookup a l = some v) : v ∈ l.map Prod.snd := by
  induction l with
  | nil => simp [List.lookup] at h
  | cons p rest ih =>
    obtain ⟨k, b⟩ := p
    rw [List.lookup] at h
    split at h
    · cases h
      exact List.mem_cons_self _ _
    · exact List.mem_cons_of_mem b (ih h)

/-! Structural lemmas about the `(month, state)` group frames. -/

theorem mkey_setMonthCol (r : Row) : mkey (setMonthCol r) = (monthOf r.date, r.state) := rfl

theorem enrol_mt_shape {df : List Row} {x : MtERow} (hx : x ∈ enrol_mt df) :
    (x.month, x.state) ∈ df.map mkey := by
  unfold enrol_mt at hx
  rcases List.mem_map.mp hx with ⟨k, hk, rfl⟩
  simpa using (mem_groupedKeys msLe (df.map mkey) k).mp hk

theorem mkey_mem_enrol_mt {df : List Row} {k : Month × String} (hk : k ∈ df.map mkey) :
    ∃ x ∈ enrol_mt df, x.month = k.1 ∧ x.state = k.2 :=
  ⟨_, List.mem_map_of_mem _ ((mem_groupedKeys msLe (df.map mkey) k).mpr hk), rfl, rfl⟩

theorem month_mem_mt {df : List Row} {x : MtERow}
    (hx : x ∈ enrol_mt (df.map setMonthCol)) :
    ∃ r ∈ df, r.state = x.state ∧ monthOf r.date = x.month := by
  have h := enrol_mt_shape hx
  rcases List.mem_map.mp h with ⟨r1, hr1, hk⟩
  rcases List.mem_map.mp hr1 with ⟨r0, hr0, rfl⟩
  rw [mkey_setMonthCol] at hk
  have h1 : monthOf r0.date = x.month := congrArg Prod.fst hk
  have h2 : r0.state = x.state := congrArg Prod.snd hk
  exact ⟨r0, hr0, h2, h1⟩

theorem mt_month_of_row {df : List Row} {r : Row} (hr : r ∈ df) :
    ∃ x ∈ enrol_mt (df.map setMonthCol), x.state = r.state ∧ x.month = monthOf r.date := by
  have hk : (monthOf r.date, r.state) ∈ (df.map setMonthCol).map mkey := by
    rw [show (monthOf r.date, r.state) = mkey (setMonthCol r) from rfl]
    exact List.mem_map_of_mem _ (List.mem_map_of_mem _ hr)
  rcases mkey_mem_enrol_mt hk with ⟨x, hx, h1, h2⟩
  exact ⟨x, hx, h2, h1⟩

/-! Lemmas about the cumulative-column constructors. -/

theorem addCumE_months (c05 c517 c18 : Nat) (rows : List ETsRow) :
    (addCumE c05 c517 c18 rows).map EDtsRow.month = rows.map ETsRow.month := by
  induction rows generalizing c05 c517 c18 with
  | nil => rfl
  | cons r rs ih => simp [addCumE, ih]

theorem addCumE_totals (c05 c517 c18 : Nat) (rows : List ETsRow) :
    (addCumE c05 c517 c18 rows).map EDtsRow.total = rows.map ETsRow.total := by
  induction rows generalizing c05 c517 c18 with
  | nil => rfl
  | cons r rs ih => simp [addCumE, ih]

theorem addCumE_parts (c05 c517 c18 : Nat) (rows : List ETsRow) :
    ∀ x ∈ addCumE c05 c517 c18 rows,
      x.c_total = x.c_age_0_5 + x.c_age_5_17 + x.c_age_18_greater := by
  induction rows generalizing c05 c517 c18 with
  | nil => intro x hx; cases hx
  | cons r rs ih =>
    intro x hx
    rw [addCumE] at hx
    rcases List.mem_cons.mp hx with rfl | hx'
    · rfl
    · exact ih _ _ _ x hx'

theorem addCumE_ctotal (rows : List ETsRow) (c05 c517 c18 : Nat)
    (H : ∀ r ∈ rows, r.total = r.age_0_5 + r.age_5_17 + r.age_18_greater) :
    (addCumE c05 c517 c18 rows).map EDtsRow.c_total
      = cumsumFrom (c05 + c517 + c18) (rows.map ETsRow.total) := by
  induction rows generalizing c05 c517 c18 with
  | nil => rfl
  | cons r rs ih =>
    have hr := H r (List.mem_cons_self r rs)
    simp only [addCumE, List.map_cons, cumsumFrom, List.cons.injEq]
    refine ⟨by omega, ?_⟩
    rw [ih _ _ _ (fun x hx => H x (List.mem_cons_of_mem r hx))]
    congr 1
    omega

theorem addCumB_months (c517 c17 : Nat) (rows : List BTsRow) :
    (addCumB c517 c17 rows).map BDtsRow.month = rows.map BTsRow.month := by
  induction rows generalizing c517 c17 with
  | nil => rfl
  | cons r rs ih => simp [addCumB, ih]

theorem addCumB_totals (c517 c17 : Nat) (rows : List BTsRow) :
    (addCumB c517 c17 rows).map BDtsRow.total = rows.map BTsRow.total := by
  induction rows generalizing c517 c17 with
  | nil => rfl
  | cons r rs ih => simp [addCumB, ih]

theorem addCumB_parts (c517 c17 : Nat) (rows : List BTsRow) :
    ∀ x ∈ addCumB c517 c17 rows,
      x.c_total = x.c_bio_age_5_17 + x.c_bio_age_17_ := by
  induction rows generalizing c517 c17 with
  | nil => intro x hx; cases hx
  | cons r rs ih =>
    intro x hx
    rw [addCumB] at hx
    rcases List.mem_cons.mp hx with rfl | hx'
    · rfl
    · exact ih _ _ x hx'

theorem addCumB_ctotal (rows : List BTsRow) (c517 c17 : Nat)
    (H : ∀ r ∈ rows, r.total = r.bio_age_5_17 + r.bio_age_17_) :
    (addCumB c517 c17 rows).map BDtsRow.c_total
      = cumsumFrom (c517 + c17) (rows.map BTsRow.total) := by
  induction rows generalizing c517 c17 with
  | nil => rfl
  | cons r rs ih =>
    have hr := H r (List.mem_cons_self r rs)
    simp only [addCumB, List.map_cons, cumsumFrom, List.cons.injEq]
    refine ⟨by omega, ?_⟩
    rw [ih _ _ (fun x hx => H x (List.mem_cons_of_mem r hx))]
    congr 1
    omega

theorem addCumD_months (c517 c17 : Nat) (rows : List DTsRow) :
    (addCumD c517 c17 rows).map DDtsRow.month = rows.map DTsRow.month := by
  induction rows generalizing c517 c17 with
  | nil => rfl
  | cons r rs ih => simp [addCumD, ih]

theorem addCumD_totals (c517 c17 : Nat) (rows : List DTsRow) :
    (addCumD c517 c17 rows).map DDtsRow.total = rows.map DTsRow.total := by
  induction rows generalizing c517 c17 with
  | nil => rfl
  | cons r rs ih => simp [addCumD, ih]

theorem addCumD_parts (c517 c17 : Nat) (rows : List DTsRow) :
    ∀ x ∈ addCumD c517 c17 rows,
      x.c_total = x.c_demo_age_5_17 + x.c_demo_age_17_ := by
  induction rows generalizing c517 c17 with
  | nil => intro x hx; cases hx
  | cons r rs ih =>
    intro x hx
    rw [addCumD] at hx
    rcases List.mem_cons.mp hx with rfl | hx'
    · rfl
    · exact ih _ _ x hx'

theorem addCumD_ctotal (rows : List DTsRow) (c517 c17 : Nat)
    (H : ∀ r ∈ rows, r.total = r.demo_age_5_17 + r.demo_age_17_) :
    (addCumD c517 c17 rows).map DDtsRow.c_total
      = cumsumFrom (c517 + c17) (rows.map DTsRow.total) := by
  induction rows generalizing c517 c17 with
  | nil => rfl
  | cons r rs ih =>
    have hr := H r (List.mem_cons_self r rs)
    simp only [addCumD, List.map_cons, cumsumFrom, List.cons.injEq]
    refine ⟨by omega, ?_⟩
    rw [ih _ _ (fun x hx => H x (List.mem_cons_of_mem r hx))]
    congr 1
    omega

/-! The derived-total invariant propagates through each grouping stage. -/

theorem rows_total_inv_E (df : List Row) :
    ∀ r ∈ (df.map setTotalE).map setMonthCol,
      r.total.getD 0 = r.age_0_5.getD 0 + r.age_5_17.getD 0 + r.age_18_greater.getD 0 := by
  intro r hr
  rcases List.mem_map.mp hr with ⟨r1, hr1, rfl⟩
  rcases List.mem_map.mp hr1 with ⟨r0, _, rfl⟩
  rfl

theorem rows_total_inv_B (df : List Row) :
    ∀ r ∈ (df.map setTotalB).map setMonthCol,
      r.total.getD 0 = r.bio_age_5_17.getD 0 + r.bio_age_17_.getD 0 := by
  intro r hr
  rcases List.mem_map.mp hr with ⟨r1, hr1, rfl⟩
  rcases List.mem_map.mp hr1 with ⟨r0, _, rfl⟩
  rfl

theorem rows_total_inv_D (df : List Row) :
    ∀ r ∈ (df.map setTotalD).map setMonthCol,
      r.total.getD 0 = r.demo_age_5_17.getD 0 + r.demo_age_17_.getD 0 := by
  intro r hr
  rcases List.mem_map.mp hr with ⟨r1, hr1, rfl⟩
  rcases List.mem_map.mp hr1 with ⟨r0, _, rfl⟩
  rfl

theorem enrol_mt_inv {df : List Row}
    (H : ∀ r ∈ df, r.total.getD 0 = r.age_0_5.getD 0 + r.age_5_17.getD 0 + r.age_18_greater.getD 0) :
    ∀ x ∈ enrol_mt df, x.total = x.age_0_5 + x.age_5_17 + x.age_18_greater := by
  intro x hx
  unfold enrol_mt at hx
  rcases List.mem_map.mp hx with ⟨k, _, rfl⟩
  exact sum_map_add3 _ _ _ _ _ (fun r hr => H r (List.mem_of_mem_filter hr))

theorem bio_mt_inv {df : List Row}
    (H : ∀ r ∈ df, r.total.getD 0 = r.bio_age_5_17.getD 0 + r.bio_age_17_.getD 0) :
    ∀ x ∈ bio_mt df, x.total = x.bio_age_5_17 + x.bio_age_17_ := by
  intro x hx
  unfold bio_mt at hx
  rcases List.mem_map.mp hx with ⟨k, _, rfl⟩
  exact sum_map_add2 _ _ _ _ (fun r hr => H r (List.mem_of_mem_filter hr))

theorem demo_mt_inv {df : List Row}
    (H : ∀ r ∈ df, r.total.getD 0 = r.demo_age_5_17.getD 0 + r.demo_age_17_.getD 0) :
    ∀ x ∈ demo_mt df, x.total = x.demo_age_5_17 + x.demo_age_17_ := by
  intro x hx
  unfold demo_mt at hx
  rcases List.mem_map.mp hx with ⟨k, _, rfl⟩
  exact sum_map_add2 _ _ _ _ (fun r hr => H r (List.mem_of_mem_filter hr))

theorem egroupMonth_inv {mt : List MtERow}
    (H : ∀ x ∈ mt, x.total = x.age_0_5 + x.age_5_17 + x.age_18_greater) :
    ∀ y ∈ egroupMonth mt, y.total = y.age_0_5 + y.age_5_17 + y.age_18_greater := by
  intro y hy
  unfold egroupMonth at hy
  rcases List.mem_map.mp hy with ⟨mo, _, rfl⟩
  exact sum_map_add3 _ _ _ _ _ (fun x hx => H x (List.mem_of_mem_filter hx))

theorem bgroupMonth_inv {mt : List MtBRow}
    (H : ∀ x ∈ mt, x.total = x.bio_age_5_17 + x.bio_age_17_) :
    ∀ y ∈ bgroupMonth mt, y.total = y.bio_age_5_17 + y.bio_age_17_ := by
  intro y hy
  unfold bgroupMonth at hy
  rcases List.mem_map.mp hy with ⟨mo, _, rfl⟩
  exact sum_map_add2 _ _ _ _ (fun x hx => H x (List.mem_of_mem_filter hx))

theorem dgroupMonth_inv {mt : List MtDRow}
    (H : ∀ x ∈ mt, x.total = x.demo_age_5_17 + x.demo_age_17_) :
    ∀ y ∈ dgroupMonth mt, y.total = y.demo_age_5_17 + y.demo_age_17_ := by
  intro y hy
  unfold dgroupMonth at hy
  rcases List.mem_map.mp hy with ⟨mo, _, rfl⟩
  exact sum_map_add2 _ _ _ _ (fun x hx => H x (List.mem_of_mem_filter hx))

/-! The month sequence of a month-regrouped frame. -/

theorem egroupMonth_months (mt : List MtERow) :
    (egroupMonth mt).map ETsRow.month = groupedKeys monthLe (mt.map MtERow.month) := by
  unfold egroupMonth
  rw [List.map_map]
  exact List.map_id _

/-- The month column of the enrolment time-series output, as the sorted
distinct keys of the (optionally state-filtered) intermediate frame. -/
theorem enrol_months_eq (df : List Row) (stv : String) :
    ((enrol_date_wise df stv).2.1).map ETsRow.month
      = groupedKeys monthLe
          ((if stv ≠ "" then (enrol_mt (df.map setMonthCol)).filter (fun x => x.state == stv)
            else enrol_mt (df.map setMonthCol)).map MtERow.month) := by
  show ((enrol_dts df stv).map stripE).map ETsRow.month = _
  rw [List.map_map]
  have h1 : (ETsRow.month ∘ stripE) = EDtsRow.month := rfl
  rw [h1]
  unfold enrol_dts
  rw [addCumE_months, egroupMonth_months]

/-- Column `c_total` of the enrolment series equals the running cumulative sum
of the series' own `total` column, for frames whose `total` column the
dispatcher derived. -/
theorem enrol_dts_ctotal (df : List Row) (stv : String) :
    (enrol_dts (df.map setTotalE) stv).map EDtsRow.c_total
      = cumsum ((enrol_dts (df.map setTotalE) stv).map EDtsRow.total) := by
  unfold enrol_dts
  rw [addCumE_totals, addCumE_ctotal]
  · rfl
  · intro y hy
    refine egroupMonth_inv ?_ y hy
    intro x hx
    refine enrol_mt_inv (rows_total_inv_E df) x ?_
    split at hx
    · exact List.mem_of_mem_filter hx
    · exact hx

/-- Biometric analogue of `enrol_dts_ctotal`. -/
theorem bio_dts_ctotal (df : List Row) (stv : String) :
    (bio_dts (df.map setTotalB) stv).map BDtsRow.c_total
      = cumsum ((bio_dts (df.map setTotalB) stv).map BDtsRow.total) := by
  unfold bio_dts
  rw [addCumB_totals, addCumB_ctotal]
  · rfl
  · intro y hy
    refine bgroupMonth_inv ?_ y hy
    intro x hx
    refine bio_mt_inv (rows_total_inv_B df) x ?_
    split at hx
    · exact List.mem_of_mem_filter hx
    · exact hx

/-- Demographic analogue of `enrol_dts_ctotal`. -/
theorem demo_dts_ctotal (df : List Row) (stv : String) :
    (demo_dts (df.map setTotalD) stv).map DDtsRow.c_total
      = cumsum ((demo_dts (df.map setTotalD) stv).map DDtsRow.total) := by
  unfold demo_dts
  rw [addCumD_totals, addCumD_ctotal]
  · rfl
  · intro y hy
    refine dgroupMonth_inv ?_ y hy
    intro x hx
    refine demo_mt_inv (rows_total_inv_D df) x ?_
    split at hx
    · exact List.mem_of_mem_filter hx
    · exact hx

/-- Dates of a frame are untouched by a column-adding row map. -/
theorem map_date_of_preserving (df : List Row) (g : Row → Row)
    (hg : ∀ r, (g r).date = r.date) : (df.map g).map Row.date = df.map Row.date := by
  rw [List.map_map]
  exact List.map_congr_left (fun r _ => hg r)

/-- Omitted bounds are definitionally the column min / max in
`enrol_state_wise`. -/
theorem enrol_state_wise_default (df : List Row) :
    enrol_state_wise df none none
      = enrol_state_wise df (some (minDateList (df.map Row.date)))
          (some (maxDateList (df.map Row.date))) := rfl

/-- Omitted bounds are definitionally the column min / max in
`bio_state_wise`. -/
theorem bio_state_wise_default (df : List Row) :
    bio_state_wise df none none
      = bio_state_wise df (some (minDateList (df.map Row.date)))
          (some (maxDateList (df.map Row.date))) := rfl

/-- Omitted bounds are definitionally the column min / max in
`demo_state_wise`. -/
theorem demo_state_wise_default (df : List Row) :
    demo_state_wise df none none
      = demo_state_wise df (some (minDateList (df.map Row.date)))
          (some (maxDateList (df.map Row.date))) := rfl

/-! The claims. -/

/-- C1, counterexample: a raw row with region text `"Daman & Diu"` does not
produce exactly one Canonical Record, and neither does one with
`"Jammu and Kashmir"` — the explode step emits one record per separated token
and no deduplication follows. -/
theorem c1_counterexample :
    ¬ ((explodeRow damanRow).length = 1) ∧ ¬ ((explodeRow jkRow).length = 1) :=
  ⟨by decide, by decide⟩

/-- C1, amended: a raw row with region text `"Daman & Diu"` produces exactly
two Canonical Records, each with region `"daman and diu"`, and a raw row with
region text `"Jammu and Kashmir"` produces exactly two Canonical Records, each
with region `"jammu and kashmir"`: when several separated tokens resolve
through the alias table to the same canonical name, one duplicate record per
token is emitted. -/
theorem c1_amended :
    explodeRow damanRow = [{ damanRow with state := "daman and diu" },
                           { damanRow with state := "daman and diu" }]
    ∧ (explodeRow damanRow).map Row.state = ["daman and diu", "daman and diu"]
    ∧ explodeRow jkRow = [{ jkRow with state := "jammu and kashmir" },
                          { jkRow with state := "jammu and kashmir" }]
    ∧ (explodeRow jkRow).map Row.state = ["jammu and kashmir", "jammu and kashmir"] :=
  ⟨by decide, by decide, by decide, by decide⟩

/-- C2: for every category identifier other than the three known ones, both
dispatchers fall through every branch and produce no result (`none`, the
model of the fatal `UnknownCategory` failure), in either mode. -/
theorem c2_unknown_category (folder : String) (df : List Row) (stv : String)
    (s e : Option Date)
    (h1 : folder ≠ "api_data_aadhar_enrolment")
    (h2 : folder ≠ "api_data_aadhar_biometric")
    (h3 : folder ≠ "api_data_aadhar_demographic") :
    date_wise folder df stv = none ∧ state_wise folder df s e = none := by
  constructor
  · simp [date_wise, h1, h2, h3]
  · simp [state_wise, h1, h2, h3]

/-- C2 witness: the concrete unknown category `"folder_x"` fails in both modes. -/
theorem c2_witness :
    ("folder_x" ≠ "api_data_aadhar_enrolment"
      ∧ "folder_x" ≠ "api_data_aadhar_biometric"
      ∧ "folder_x" ≠ "api_data_aadhar_demographic")
    ∧ (date_wise "folder_x" [] "" = none ∧ state_wise "folder_x" [] none none = none) :=
  ⟨⟨by decide, by decide, by decide⟩,
   c2_unknown_category "folder_x" [] "" none none (by decide) (by decide) (by decide)⟩

/-- C3: for every category and region filter, at every row of the internal
time-series frame the cumulative total equals the sum of the per-measure
cumulatives, and the `c_total` column equals the running cumulative sum of the
frame's own `total` column — both computation paths agree. -/
theorem c3_cumulative_invariant (df : List Row) (stv : String) :
    ((∀ i : Fin (enrol_dts (df.map setTotalE) stv).length,
        ((enrol_dts (df.map setTotalE) stv).get i).c_total
          = ((enrol_dts (df.map setTotalE) stv).get i).c_age_0_5
            + ((enrol_dts (df.map setTotalE) stv).get i).c_age_5_17
            + ((enrol_dts (df.map setTotalE) stv).get i).c_age_18_greater)
      ∧ (enrol_dts (df.map setTotalE) stv).map EDtsRow.c_total
          = cumsum ((enrol_dts (df.map setTotalE) stv).map EDtsRow.total))
    ∧ ((∀ i : Fin (bio_dts (df.map setTotalB) stv).length,
        ((bio_dts (df.map setTotalB) stv).get i).c_total
          = ((bio_dts (df.map setTotalB) stv).get i).c_bio_age_5_17
            + ((bio_dts (df.map setTotalB) stv).get i).c_bio_age_17_)
      ∧ (bio_dts (df.map setTotalB) stv).map BDtsRow.c_total
          = cumsum ((bio_dts (df.map setTotalB) stv).map BDtsRow.total))
    ∧ ((∀ i : Fin (demo_dts (df.map setTotalD) stv).length,
        ((demo_dts (df.map setTotalD) stv).get i).c_total
          = ((demo_dts (df.map setTotalD) stv).get i).c_demo_age_5_17
            + ((demo_dts (df.map setTotalD) stv).get i).c_demo_age_17_)
      ∧ (demo_dts (df.map setTotalD) stv).map DDtsRow.c_total
          = cumsum ((demo_dts (df.map setTotalD) stv).map DDtsRow.total)) := by
  refine ⟨⟨fun i => ?_, enrol_dts_ctotal df stv⟩,
          ⟨fun i => ?_, bio_dts_ctotal df stv⟩,
          ⟨fun i => ?_, demo_dts_ctotal df stv⟩⟩
  · exact addCumE_parts _ _ _ _ _ (List.get_mem _ i.1 i.2)
  · exact addCumB_parts _ _ _ _ (List.get_mem _ i.1 i.2)
  · exact addCumD_parts _ _ _ _ (List.get_mem _ i.1 i.2)

/-- C4: on a non-empty record set, region aggregation with no explicit bounds
returns a result identical to region aggregation with explicit bounds equal to
the record set's true minimum and maximum dates, in every category. -/
theorem c4_range_default (folder : String) (df : List Row) (hne : df ≠ []) :
    state_wise folder df none none
      = state_wise folder df (some (minDateList (df.map Row.date)))
          (some (maxDateList (df.map Row.date))) := by
  by_cases h1 : folder = "api_data_aadhar_enrolment"
  · subst h1
    have key := enrol_state_wise_default (df.map setTotalE)
    rw [map_date_of_preserving df setTotalE (fun r => rfl)] at key
    exact congrArg
      (fun p : List EStRow × String => some (df.map setTotalE, StTable.enrol p.1, p.2)) key
  · by_cases h2 : folder = "api_data_aadhar_biometric"
    · subst h2
      have key := bio_state_wise_default (df.map setTotalB)
      rw [map_date_of_preserving df setTotalB (fun r => rfl)] at key
      exact congrArg
        (fun p : List BStRow × String => some (df.map setTotalB, StTable.bio p.1, p.2)) key
    · by_cases h3 : folder = "api_data_aadhar_demographic"
      · subst h3
        have key := demo_state_wise_default (df.map setTotalD)
        rw [map_date_of_preserving df setTotalD (fun r => rfl)] at key
        exact congrArg
          (fun p : List DStRow × String => some (df.map setTotalD, StTable.demo p.1, p.2)) key
      · simp [state_wise, h1, h2, h3]

/-- C4 witness: the equivalence at the concrete one-row enrolment frame. -/
theorem c4_witness :
    edgeDf ≠ []
    ∧ state_wise "api_data_aadhar_enrolment" edgeDf none none
        = state_wise "api_data_aadhar_enrolment" edgeDf
            (some (minDateList (edgeDf.map Row.date)))
            (some (maxDateList (edgeDf.map Row.date))) :=
  ⟨by decide, c4_range_default "api_data_aadhar_enrolment" edgeDf (by decide)⟩

/-- C5: the time-series aggregation outputs exactly one row per distinct
calendar month present in the filtered records, in strictly ascending month
order, with no rows for absent months; concretely, data spanning only
January and March 2024 yields exactly the two months January and March. -/
theorem c5_sparse_months (df : List Row) (stv : String) :
    (((enrol_date_wise df stv).2.1).map ETsRow.month).Pairwise monthLt
    ∧ (∀ mo : Month,
        mo ∈ ((enrol_date_wise df stv).2.1).map ETsRow.month ↔
          ∃ r ∈ df, (stv ≠ "" → r.state = stv) ∧ monthOf r.date = mo)
    ∧ ((enrol_date_wise sparseDf "").2.1).map ETsRow.month = [(2024, 1), (2024, 3)] := by
  refine ⟨?_, fun mo => ?_, by decide⟩
  · rw [enrol_months_eq]
    exact (sorted_groupedKeys monthLe _).and (nodup_groupedKeys monthLe _)
  · rw [enrol_months_eq, mem_groupedKeys]
    constructor
    · intro hmem
      rcases List.mem_map.mp hmem with ⟨x, hxb, rfl⟩
      by_cases hs : stv ≠ ""
      · rw [if_pos hs] at hxb
        have hx := List.mem_of_mem_filter hxb
        have hpred := List.of_mem_filter hxb
        rcases month_mem_mt hx with ⟨r, hr, hrs, hrm⟩
        refine ⟨r, hr, fun _ => ?_, hrm⟩
        rw [hrs]
        simpa using hpred
      · rw [if_neg hs] at hxb
        rcases month_mem_mt hxb with ⟨r, hr, _, hrm⟩
        exact ⟨r, hr, fun h => absurd h hs, hrm⟩
    · rintro ⟨r, hr, hcond, hmo⟩
      rcases mt_month_of_row hr with ⟨x, hx, hxs, hxm⟩
      by_cases hs : stv ≠ ""
      · rw [if_pos hs]
        refine List.mem_map.mpr ⟨x, List.mem_filter.mpr ⟨hx, ?_⟩, by rw [hxm, hmo]⟩
        simp [hxs, hcond hs]
      · rw [if_neg hs]
        exact List.mem_map.mpr ⟨x, hx, by rw [hxm, hmo]⟩

/-- C6: a raw row all of whose separated, trimmed region candidates equal the
sentinel `"100000"` contributes zero Canonical Records. -/
theorem c6_sentinel (r : Row) (h : ∀ c ∈ candidates r.state, c = "100000") :
    explodeRow r = [] := by
  unfold explodeRow normalizeRow
  have hfil : (candidates r.state).filter (fun c => !(c == "100000")) = [] := by
    rw [List.filter_eq_nil_iff]
    intro a ha
    simp [h a ha]
  rw [hfil]
  rfl

/-- C6 witness: a row with region exactly `"100000"` yields zero records. -/
theorem c6_witness :
    (∀ c ∈ candidates sentinelRow.state, c = "100000") ∧ explodeRow sentinelRow = [] :=
  ⟨by decide, c6_sentinel sentinelRow (by decide)⟩

/-- C7, counterexample: both dispatched aggregations return a mutated record
set (a `total` and, for the time series, a `month` column are added in place),
so the input frame is not left unchanged. -/
theorem c7_counterexample :
    (date_wise "api_data_aadhar_enrolment" [biharRow] "").map Prod.fst ≠ some [biharRow]
    ∧ (state_wise "api_data_aadhar_enrolment" [biharRow] none none).map Prod.fst
        ≠ some [biharRow] :=
  ⟨by decide, by decide⟩

/-- C7, amended: both aggregations are deterministic functions of the record
set, but they mutate their input in place: the dispatcher adds (or overwrites)
the derived `total` column, and the time-series path additionally adds the
`month` column; every other field of every record — region, date and all
measure columns — is unchanged. -/
theorem c7_amended :
    (∀ (df : List Row) (stv : String),
        (date_wise "api_data_aadhar_enrolment" df stv).map Prod.fst
          = some ((df.map setTotalE).map setMonthCol)
        ∧ (date_wise "api_data_aadhar_biometric" df stv).map Prod.fst
            = some ((df.map setTotalB).map setMonthCol)
        ∧ (date_wise "api_data_aadhar_demographic" df stv).map Prod.fst
            = some ((df.map setTotalD).map setMonthCol))
    ∧ (∀ (df : List Row) (s e : Option Date),
        (state_wise "api_data_aadhar_enrolment" df s e).map Prod.fst
          = some (df.map setTotalE)
        ∧ (state_wise "api_data_aadhar_biometric" df s e).map Prod.fst
            = some (df.map setTotalB)
        ∧ (state_wise "api_data_aadhar_demographic" df s e).map Prod.fst
            = some (df.map setTotalD))
    ∧ (∀ r : Row,
        (setMonthCol (setTotalE r)).state = r.state
        ∧ (setMonthCol (setTotalE r)).date = r.date
        ∧ (setMonthCol (setTotalE r)).age_0_5 = r.age_0_5
        ∧ (setMonthCol (setTotalE r)).age_5_17 = r.age_5_17
        ∧ (setMonthCol (setTotalE r)).age_18_greater = r.age_18_greater
        ∧ (setMonthCol (setTotalE r)).bio_age_5_17 = r.bio_age_5_17
        ∧ (setMonthCol (setTotalE r)).bio_age_17_ = r.bio_age_17_
        ∧ (setMonthCol (setTotalE r)).demo_age_5_17 = r.demo_age_5_17
        ∧ (setMonthCol (setTotalE r)).demo_age_17_ = r.demo_age_17_
        ∧ (setMonthCol (setTotalE r)).total
            = some (r.age_0_5.getD 0 + r.age_5_17.getD 0 + r.age_18_greater.getD 0)
        ∧ (setMonthCol (setTotalE r)).month = some (monthOf r.date)) :=
  ⟨fun _ _ => ⟨rfl, rfl, rfl⟩,
   fun _ _ _ => ⟨rfl, rfl, rfl⟩,
   fun _ => ⟨rfl, rfl, rfl, rfl, rfl, rfl, rfl, rfl, rfl, rfl, rfl⟩⟩

/-- C8: on a non-empty record set, a region filter naming an absent region
makes the time-series aggregation return an empty table, and a date range
containing no records makes the region aggregation return an empty table —
in both cases a value, not a failure. -/
theorem c8_empty_result (df : List Row) (stv : String) (s e : Date) (hne : df ≠ []) :
    (stv ≠ "" → (∀ r ∈ df, r.state ≠ stv) → (enrol_date_wise df stv).2.1 = [])
    ∧ (df.filter (fun r => betweenB s e r.date) = [] →
        (enrol_state_wise df (some s) (some e)).1 = []) := by
  constructor
  · intro hstv hnost
    show (enrol_dts df stv).map stripE = []
    unfold enrol_dts
    have hbase : (if stv ≠ "" then (enrol_mt (df.map setMonthCol)).filter (fun x => x.state == stv)
        else enrol_mt (df.map setMonthCol)) = [] := by
      rw [if_pos hstv, List.filter_eq_nil_iff]
      intro x hx
      rcases month_mem_mt hx with ⟨r, hr, hrs, _⟩
      intro hx'
      refine hnost r hr ?_
      rw [hrs]
      simpa using hx'
    rw [hbase]
    rfl
  · intro hfil
    show (if Date.lt (minDateList (df.map Row.date)) s
            ∨ Date.lt e (maxDateList (df.map Row.date)) then
            egroupState (df.filter (fun r => betweenB s e r.date))
          else egroupState df) = []
    have hcond : Date.lt (minDateList (df.map Row.date)) s
        ∨ Date.lt e (maxDateList (df.map Row.date)) := by
      by_contra hc
      push_neg at hc
      obtain ⟨h1, h2⟩ := hc
      have hles : Date.le s (minDateList (df.map Row.date)) := Date.le_of_not_lt h1
      have hlee : Date.le (maxDateList (df.map Row.date)) e := Date.le_of_not_lt h2
      obtain ⟨r0, hr0⟩ := List.exists_mem_of_ne_nil df hne
      have hmem : r0.date ∈ df.map Row.date := List.mem_map_of_mem Row.date hr0
      have hb : betweenB s e r0.date = true := by
        unfold betweenB
        rw [Bool.and_eq_true, decide_eq_true_eq, decide_eq_true_eq]
        exact ⟨Date.le_trans hles (minDateList_le _ _ hmem),
               Date.le_trans (le_maxDateList _ _ hmem) hlee⟩
      have hr0' : r0 ∈ df.filter (fun r => betweenB s e r.date) :=
        List.mem_filter.mpr ⟨hr0, hb⟩
      rw [hfil] at hr0'
      cases hr0'
    rw [if_pos hcond, hfil]
    rfl

/-- C8 witness: the concrete one-row frame with a never-matching region filter
and a record-free date range yields empty aggregates. -/
theorem c8_witness :
    (edgeDf ≠ [] ∧ "mars" ≠ "" ∧ (∀ r ∈ edgeDf, r.state ≠ "mars")
      ∧ edgeDf.filter (fun r => betweenB ⟨2025, 1, 1⟩ ⟨2025, 12, 31⟩ r.date) = [])
    ∧ ((enrol_date_wise edgeDf "mars").2.1 = []
      ∧ (enrol_state_wise edgeDf (some ⟨2025, 1, 1⟩) (some ⟨2025, 12, 31⟩)).1 = []) :=
  ⟨⟨by decide, by decide, by decide, by decide⟩,
   (c8_empty_result edgeDf "mars" ⟨2025, 1, 1⟩ ⟨2025, 12, 31⟩ (by decide)).1
     (by decide) (by decide),
   (c8_empty_result edgeDf "mars" ⟨2025, 1, 1⟩ ⟨2025, 12, 31⟩ (by decide)).2 (by decide)⟩

/-- C9: the alias substitution of the Region Normalizer is idempotent — one
application equals two — and every value stored in the alias table is a fixed
point of the table. -/
theorem c9_idempotent :
    (∀ s : String, applyCorr (applyCorr s) = applyCorr s)
    ∧ st_corr.all (fun p => applyCorr p.2 == p.2) = true := by
  constructor
  · intro s
    unfold applyCorr
    cases h : List.lookup s st_corr with
    | none => simp [h]
    | some v =>
      have hv : v ∈ st_corr.map Prod.snd := lookup_mem_snd h
      have hall : ∀ x ∈ st_corr.map Prod.snd, List.lookup x st_corr = none := by decide
      rw [hall v hv]
  · decide

/-- C10: a dataset directory listing with zero `.csv` files does not load as an
empty-but-successful record set: `create` fails (the concatenation of zero
parsed files raises). -/
theorem c10_empty_folder (files : List CsvFile)
    (h : ∀ f ∈ files, strEndsWith f.name ".csv" = false) :
    create files = none := by
  unfold create
  have hfil : files.filter (fun f => strEndsWith f.name ".csv") = [] := by
    rw [List.filter_eq_nil_iff]
    intro f hf
    simp [h f hf]
  rw [hfil]
  rfl

/-- C10 witness: a folder holding only `readme.txt` fails to load. -/
theorem c10_witness :
    (∀ f ∈ txtOnlyFolder, strEndsWith f.name ".csv" = false)
    ∧ create txtOnlyFolder = none :=
  ⟨by decide, c10_empty_folder txtOnlyFolder (by decide)⟩

end Adhaar
